import Mathlib

/-!
Verification development for the Paper2video backend pipeline core.

The definitions below are a shallow embedding of the Python sources
`backend/app/services/video_composer.py`, `backend/app/services/job_processor.py`,
`backend/app/services/slide_generator.py`, `backend/app/routes/jobs.py` and
`backend/app/models.py`.  External effects (the filesystem, the ffmpeg /
ffprobe invocations, the LLM, the TTS engine) are modelled as explicit
oracle inputs; pure control flow is translated statement by statement.
Durations are rationals (Python floats appear only as decimal literals such
as 0.5, 5.0 and 30.0, all exactly representable).
-/

/-- Result of probing an audio file with ffprobe, as seen by
`VideoComposer._get_audio_duration`: `some d` means the invocation produced
parseable JSON with `format.duration = d`; `none` means the invocation or the
parse raised (any exception). -/
def get_audio_duration (probe : Option ℚ) : ℚ :=
  match probe with
  | some d => d
  | none => 30  -- `except Exception: return 30.0  # Default duration`

/-- Oracle inputs of one `VideoComposer.create_slide_video` call:
existence/size of the two input files, the ffprobe outcome for the audio
file, the ffmpeg exit code, and whether the output file exists afterwards. -/
structure EncodeEnv where
  slideExists : Bool      -- os.path.exists(slide_image)
  audioExists : Bool      -- os.path.exists(audio_file)
  audioSize : Nat         -- os.path.getsize(audio_file)
  probe : Option ℚ        -- ffprobe result for audio_file
  encodeExit : Int        -- ffmpeg returncode
  outputExists : Bool     -- os.path.exists(output_path) after the run
deriving DecidableEq

/-- Outcome of `VideoComposer.create_slide_video`.  The Python function
returns a bare bool; the constructors record which `return` statement fired
(`inputMissing`: lines 62-72, `encodeFailed`: lines 105-107, `outputMissing`:
lines 113-115, `ok`: line 116).  `t` is the value passed to ffmpeg as
`-t` (line 92: `str(duration + 0.5)`), i.e. the requested segment
duration.  Only `ok` maps to Python `True`. -/
inductive SlideVideoResult
  | inputMissing
  | encodeFailed (t : ℚ)
  | outputMissing (t : ℚ)
  | ok (t : ℚ)
deriving DecidableEq

/-- Shallow embedding of `VideoComposer.create_slide_video`. -/
def create_slide_video (e : EncodeEnv) : SlideVideoResult :=
  if ¬ e.slideExists then SlideVideoResult.inputMissing
  else if ¬ e.audioExists then SlideVideoResult.inputMissing
  else if e.audioSize = 0 then SlideVideoResult.inputMissing
  else
    let duration := get_audio_duration e.probe
    let t := duration + 1/2  -- 0.5; "-t", str(duration + 0.5)  # Add small buffer
    if e.encodeExit ≠ 0 then SlideVideoResult.encodeFailed t
    else if ¬ e.outputExists then SlideVideoResult.outputMissing t
    else SlideVideoResult.ok t

/-- Shallow embedding of `VideoComposer.create_slide_video_no_audio`: the
function runs ffmpeg with `-t str(duration)` and returns
`result.returncode == 0`; it performs no input or output file check. -/
def create_slide_video_no_audio (encodeExit : Int) : Bool :=
  encodeExit = 0

/-- One element of the `audio_files` argument of `create_slideshow_video`
(a dict with `slide_number` and `path` keys; the composer reads no other
key).  `path = none` models a missing or `None` `path` entry. -/
structure AudioInfo where
  slide_number : Nat
  path : Option String
deriving DecidableEq

/-- The dict `audio_map` built at the top of `create_slideshow_video`
(`audio_map[slide_num] = audio_info` in list order, so a later entry with
the same slide number overwrites an earlier one). -/
def audio_map (audio_files : List AudioInfo) : Nat → Option AudioInfo :=
  audio_files.foldl (fun acc ai => fun m => if m = ai.slide_number then some ai else acc m)
    (fun _ => none)

/-- A per-slide video segment file, as recorded in the `slide_videos` list
of `create_slideshow_video`.  `slide` is the 1-based slide number and `t`
the duration requested from ffmpeg for that segment (for `silent` segments
the call site always passes `duration=5.0`). -/
inductive Segment
  | audioBacked (slide : Nat) (t : ℚ)
  | silent (slide : Nat) (t : ℚ)
deriving DecidableEq

/-- Oracle inputs of one `create_slideshow_video` call.  Per-slide encode
outcomes are indexed by the 0-based loop index `i`.  `concatOutputExists`
records whether the concatenated output file exists after the final ffmpeg
run; the source never inspects it (see `concatenate_videos`). -/
structure ComposeEnv where
  fexists : String → Bool        -- os.path.exists
  fsize : String → Nat           -- os.path.getsize
  probe : String → Option ℚ      -- ffprobe per audio path
  audioEncodeExit : Nat → Int    -- ffmpeg exit of the audio-backed encode of slide i
  audioOutputExists : Nat → Bool -- output file present after that encode
  silentEncodeExit : Nat → Int   -- ffmpeg exit of the no-audio encode of slide i
  concatExit : Int               -- ffmpeg exit of the concatenation run
  concatStderr : String          -- its captured stderr
  concatOutputExists : Bool      -- output file present after the concatenation run
  outProbe : Option ℚ            -- ffprobe result for the final output file

/-- The audio path the loop body of `create_slideshow_video` decides to use
for a slide, i.e. the conjunction of the Python checks
`audio_info and audio_info.get("path")` (dict present, path key present and
truthy) and `os.path.exists(audio_path) and os.path.getsize(audio_path) > 0`.
`none` means the body falls through to the no-audio branch. -/
def audioCandidate (env : ComposeEnv) : Option AudioInfo → Option String
  | none => none
  | some ai =>
    match ai.path with
    | none => none
    | some p =>
      if p = "" then none
      else if env.fexists p ∧ env.fsize p ≠ 0 then some p
      else none

/-- The `EncodeEnv` with which the loop body invokes `create_slide_video`
for 0-based slide index `i`, image `img` and chosen audio path `p`. -/
def mkEncodeEnv (env : ComposeEnv) (i : Nat) (img p : String) : EncodeEnv :=
  { slideExists := env.fexists img
    audioExists := env.fexists p
    audioSize := env.fsize p
    probe := env.probe p
    encodeExit := env.audioEncodeExit i
    outputExists := env.audioOutputExists i }

/-- One iteration of the `for i, slide_img in enumerate(slide_images)` loop
of `create_slideshow_video`: `some s` means a segment file was appended to
`slide_videos`, `none` means the slide was dropped.  An audio-backed encode
that does not succeed falls through to `create_slide_video_no_audio` with
`duration=5.0`, exactly as in the source. -/
def slideUnit (env : ComposeEnv) (amap : Nat → Option AudioInfo) (i : Nat) (img : String) :
    Option Segment :=
  let fallback : Option Segment :=
    if create_slide_video_no_audio (env.silentEncodeExit i) then
      some (Segment.silent (i + 1) 5)
    else none
  match audioCandidate env (amap (i + 1)) with
  | some p =>
    match create_slide_video (mkEncodeEnv env i img p) with
    | SlideVideoResult.ok t => some (Segment.audioBacked (i + 1) t)
    | _ => fallback
  | none => fallback

/-- The `slide_videos` list produced by the loop, starting at 0-based index
`i` with the remaining images. -/
def slide_videos (env : ComposeEnv) (amap : Nat → Option AudioInfo) :
    Nat → List String → List Segment
  | _, [] => []
  | i, img :: rest =>
    match slideUnit env amap i img with
    | some s => s :: slide_videos env amap (i + 1) rest
    | none => slide_videos env amap (i + 1) rest

/-- Number of loop iterations that appended no segment (dropped slides). -/
def dropped_units (env : ComposeEnv) (amap : Nat → Option AudioInfo) :
    Nat → List String → Nat
  | _, [] => 0
  | i, img :: rest =>
    match slideUnit env amap i img with
    | some _ => dropped_units env amap (i + 1) rest
    | none => 1 + dropped_units env amap (i + 1) rest

/-- Result dict of `create_slideshow_video` / `_concatenate_videos`:
`ok path duration slide_count` is `{"success": True, ...}`, `err msg` is
`{"success": False, "error": msg}`. -/
inductive ComposeResult
  | ok (path : String) (duration : ℚ) (slide_count : Nat)
  | err (msg : String)
deriving DecidableEq

/-- Shallow embedding of `VideoComposer._concatenate_videos`.  On exit code
0 it returns success with `duration = self._get_audio_duration(output_path)`
and `slide_count = len(video_files)`; it inspects neither
`env.concatOutputExists` nor the output file in any way. -/
def concatenate_videos (env : ComposeEnv) (video_files : List Segment)
    (output_path : String) : ComposeResult :=
  if env.concatExit = 0 then
    ComposeResult.ok output_path (get_audio_duration env.outProbe) video_files.length
  else
    ComposeResult.err env.concatStderr

/-- Shallow embedding of `VideoComposer.create_slideshow_video`. -/
def create_slideshow_video (env : ComposeEnv) (slide_images : List String)
    (audio_files : List AudioInfo) (output_path : String) : ComposeResult :=
  let vids := slide_videos env (audio_map audio_files) 0 slide_images
  if vids.isEmpty then ComposeResult.err "No slide videos created"
  else concatenate_videos env vids output_path

/-!
Slide generator (`backend/app/services/slide_generator.py`).

The Gemini call and JSON parse inside the `try` block of
`generate_slide_script` are modelled as one oracle value of type
`Except String (List RawSlide)`: `.error d` means an exception with text
`d` escaped the body (caught by the `except` clause), `.ok raw` means the
body reached `_validate_slides(slides)` with `slides = raw` (the parse
helpers return `[]` rather than raising when no JSON array is found).
-/

/-- A raw slide dict as parsed from the LLM response; `none` models a
missing key (the `.get` defaults of `_validate_slides`). -/
structure RawSlide where
  slide_number : Option Nat
  title : Option String
  bullet_points : List String
  narration : Option String
  notes : Option String
  visual_suggestion : Option String
deriving DecidableEq

/-- A validated slide record, the unit of the pipeline's slide script. -/
structure Slide where
  slide_number : Nat
  title : String
  bullet_points : List String
  narration : String
  notes : String
  visual_suggestion : String
deriving DecidableEq

/-- Body of the `for i, slide in enumerate(slides)` loop of
`SlideGenerator._validate_slides` for 0-based index `i`. -/
def validate_slide (i : Nat) (s : RawSlide) : Slide :=
  let title := s.title.getD ("Slide " ++ toString (i + 1))
  let narration0 := (s.narration.getD "")
  let narration :=
    if narration0 = "" then
      "This slide covers " ++ title ++ ". " ++ " ".intercalate (s.bullet_points.take 3)
    else narration0
  { slide_number := s.slide_number.getD (i + 1)
    title := title
    bullet_points := s.bullet_points
    narration := narration
    notes := s.notes.getD ""
    visual_suggestion := s.visual_suggestion.getD "" }

/-- Shallow embedding of `SlideGenerator._validate_slides` (an empty input
list validates to an empty list). -/
def validate_slides (slides : List RawSlide) : List Slide :=
  (slides.enum.map fun p => validate_slide p.1 p.2)

/-- One section slide of `SlideGenerator._generate_fallback_slides` for
section index `i` (0-based) with the given title. -/
def fallback_section_slide (words : List String) (chunk_size : Nat) (i : Nat)
    (sectionTitle : String) : Slide :=
  let start := i * chunk_size
  let chunk_words := if start < words.length then (words.drop start).take chunk_size else []
  let chunk_text := " ".intercalate (chunk_words.take 100)
  { slide_number := i + 2
    title := sectionTitle
    bullet_points := [if chunk_text = "" then "Content for " ++ sectionTitle else chunk_text.take 200]
    narration := "In this section about " ++ sectionTitle ++
      ", we discuss the key points. " ++ chunk_text.take 300
    notes := ""
    visual_suggestion := "Visual for " ++ sectionTitle }

/-- Shallow embedding of `SlideGenerator._generate_fallback_slides`: one
title slide followed by five fixed section slides. -/
def generate_fallback_slides (title : String) (content : String) : List Slide :=
  -- Python `content.split()`: split on whitespace runs, discarding empties.
  let words := (content.split Char.isWhitespace).filter (fun w => w ≠ "")
  let chunk_size := words.length / 5
  { slide_number := 1
    title := title
    bullet_points := ["Research Presentation", "Generated automatically"]
    narration := "Welcome to this presentation about " ++ title ++ "."
    notes := ""
    visual_suggestion := "Title slide" } ::
  (["Introduction", "Background", "Methods", "Results", "Conclusion"].enum.map
    fun p => fallback_section_slide words chunk_size p.1 p.2)

/-- Shallow embedding of `SlideGenerator.generate_slide_script`: the
fallback skeleton is substituted only when the generation/parsing body
raises; a successfully parsed (possibly empty) list is validated and
returned as is. -/
def generate_slide_script (gen : Except String (List RawSlide)) (title : String)
    (content : String) : List Slide :=
  match gen with
  | Except.error _ => generate_fallback_slides title content
  | Except.ok raw => validate_slides raw

/-!
Job store model (`backend/app/models.py`, `JobProcessor.update_job_status`).

`JobRecord` keeps the persisted fields the pipeline claims are about;
fields the claims never touch (timestamps, extracted content, the stored
video duration) are omitted.  `UpdateArgs` is one call to
`JobProcessor.update_job_status`; `update_job` is its write semantics:
`status` is always written, `progress` is written when passed
(`if progress is not None`), `message`/`error` only when truthy
(`if message:` / `if error:`), and keyword fields always when passed
(`update_data.update(kwargs)`).
-/

/-- The `JobStatus` enum of `backend/app/models.py`. -/
inductive JobStatus
  | PENDING | PARSING | GENERATING_SCRIPT | GENERATING_SLIDES
  | GENERATING_AUDIO | COMPOSING_VIDEO | COMPLETED | FAILED
deriving DecidableEq

/-- The `AvatarOption` enum of `backend/app/models.py`. -/
inductive AvatarOption
  | NONE | SVG | REALISTIC
deriving DecidableEq

/-- Persisted job fields the pipeline claims are about. -/
structure JobRecord where
  status : JobStatus
  progress : Nat
  status_message : Option String
  error_message : Option String
  slide_script : Option (List Slide)
  slide_images : Option (List String)
  video_path : Option String
deriving DecidableEq

/-- Arguments of one `update_job_status` call (`none` = not passed). -/
structure UpdateArgs where
  status : JobStatus
  progress : Option Nat
  message : Option String
  error : Option String
  slide_script : Option (List Slide)
  slide_images : Option (List String)
  video_path : Option String
deriving DecidableEq

/-- Shallow embedding of `JobProcessor.update_job_status` applied to the
stored record. -/
def update_job (r : JobRecord) (u : UpdateArgs) : JobRecord :=
  { status := u.status
    progress := u.progress.getD r.progress
    status_message :=
      match u.message with
      | some m => if m = "" then r.status_message else some m
      | none => r.status_message
    error_message :=
      match u.error with
      | some e => if e = "" then r.error_message else some e
      | none => r.error_message
    slide_script := match u.slide_script with | some s => some s | none => r.slide_script
    slide_images := match u.slide_images with | some s => some s | none => r.slide_images
    video_path := match u.video_path with | some p => some p | none => r.video_path }

/-- A progress/message-only `update_job_status` call. -/
def updP (st : JobStatus) (progress : Nat) (message : String) : UpdateArgs :=
  { status := st, progress := some progress, message := some message,
    error := none, slide_script := none, slide_images := none, video_path := none }

/-- The `update_job_status` call of the `except` handler of `process_job`
(status FAILED, `progress=0`, `message="Job failed"`, `error=str(e)`). -/
def failUpdate (diag : String) : UpdateArgs :=
  { status := JobStatus.FAILED, progress := some 0, message := some "Job failed",
    error := some diag, slide_script := none, slide_images := none, video_path := none }

/-- The record of a freshly uploaded job (`routes/jobs.py::upload_file`). -/
def initialJob : JobRecord :=
  { status := JobStatus.PENDING, progress := 0,
    status_message := some "Job created, waiting to start...",
    error_message := none, slide_script := none, slide_images := none,
    video_path := none }

/-!
Pipeline orchestrator (`JobProcessor.process_job`).

The run is a straight-line `try` body; every stage's external effect is an
oracle field of `PipelineEnv`.  `Except.error d` for a stage means that
stage raised an unhandled exception whose `str` is `d`; it is caught by the
single `except` clause, which persists the `failUpdate` and returns
`{"success": False, "error": str(e)}`.  Output-file paths are kept as the
job-directory-relative constants `"presentation.mp4"`,
`"presentation_with_avatar.mp4"` and `"intro.mp3"` (the `job_dir` prefix
never influences control flow).
-/

/-- A section dict produced by the document parser. -/
structure DocSection where
  title : String
  content : String
deriving DecidableEq

/-- The dict returned by `parse_document` (the `error` key is optional). -/
structure ParsedContent where
  text : String
  sections : List DocSection
  figures : List String
  error : Option String
deriving DecidableEq

/-- The dict returned by `generate_audio_for_slides`. -/
structure AudioGenResult where
  success : Bool
  error : Option String
  audio_files : List AudioInfo
deriving DecidableEq

/-- Result returned by `process_job` (`{"success": True, video_path,
duration, slide_count}` or `{"success": False, "error": ...}`). -/
inductive RunResult
  | ok (video_path : String) (duration : ℚ) (slide_count : Nat)
  | failed (error : String)
deriving DecidableEq

/-- Oracle inputs of one `process_job` run: one field per external stage
effect, in pipeline order. -/
structure PipelineEnv where
  parseResult : Except String ParsedContent -- `_parse_document` (raise / returned dict)
  llmResult : Except String (List RawSlide) -- Gemini call + JSON parse inside `generate_slide_script`
  imagesResult : Except String (List String) -- `generate_slide_images`
  audioResult : Except String AudioGenResult -- `generate_audio_for_slides`
  introOk : Bool                            -- `generate_single_audio` success for the fallback clip
  composerInitOk : Bool                     -- `VideoComposer()` construction (ffmpeg present)
  composeEnv : ComposeEnv                   -- encode outcomes inside `create_slideshow_video`
  avatarGenOk : Bool                        -- `generate_avatar_video` success
  overlayExit : Int                         -- ffmpeg exit of `add_avatar_overlay`
  overlayStderr : String

/-- Job inputs read by the run: the display title (`original_filename`
without extension) and the configured avatar option (`none` models a NULL
column, falsy in `if job.avatar_option and ...`). -/
structure JobInput where
  title : String
  avatar_option : Option AvatarOption
deriving DecidableEq

/-- Step 1 of `process_job` combined with `_parse_document`: an exception
from the stage propagates, and a returned dict with a truthy `error` key
raises `Exception(f"Failed to parse document: {...}")`. -/
def parse_stage (env : PipelineEnv) : Except String ParsedContent :=
  match env.parseResult with
  | Except.error d => Except.error d
  | Except.ok pc =>
    match pc.error with
    | some e => if e = "" then Except.ok pc else Except.error ("Failed to parse document: " ++ e)
    | none => Except.ok pc

/-- The `sections_text` string built by `generate_slide_script` (first ten
sections, 2000 characters of content each; raw text truncated to 10000
characters when there are no sections). -/
def sections_text (text : String) (sections : List DocSection) : String :=
  if sections.isEmpty then text.take 10000
  else (sections.take 10).foldl
    (fun acc s => acc ++ "\n### " ++ s.title ++ "\n" ++ s.content.take 2000 ++ "\n") ""

/-- The `audio_files` list after the empty-audio fallback of `process_job`:
when the stage produced no clips, a single intro clip keyed to slide 1 is
substituted if `generate_single_audio` succeeded, otherwise the list stays
empty. -/
def effective_audio_files (env : PipelineEnv) (ar : AudioGenResult) : List AudioInfo :=
  if ar.audio_files.isEmpty then
    if env.introOk then [{ slide_number := 1, path := some "intro.mp3" }] else []
  else ar.audio_files

/-- Shallow embedding of `JobProcessor._add_avatar`: `none` on avatar
generation failure or overlay failure (both swallowed), `some path` on
success. -/
def add_avatar (env : PipelineEnv) : Option String :=
  if ¬ env.avatarGenOk then none
  else if env.overlayExit = 0 then some "presentation_with_avatar.mp4"
  else none

/-- Shallow embedding of `VideoComposer.add_avatar_overlay` (success iff
exit code 0; no output-file check). -/
def add_avatar_overlay (exitCode : Int) (stderr : String) (output_path : String) :
    ComposeResult :=
  if exitCode = 0 then ComposeResult.ok output_path 0 0
  else ComposeResult.err stderr

/-- Shallow embedding of `JobProcessor._compose_video` (the constructor
of `VideoComposer` raising `"FFmpeg not found. Please install FFmpeg."`
is caught and converted to a failure dict). -/
def compose_video_stage (env : PipelineEnv) (imgs : List String)
    (audio_files : List AudioInfo) : ComposeResult :=
  if env.composerInitOk then
    create_slideshow_video env.composeEnv imgs audio_files "presentation.mp4"
  else ComposeResult.err "FFmpeg not found. Please install FFmpeg."

/-- Trace-and-result of a failing run: the updates persisted so far,
followed by the `except`-handler update. -/
def failTrace (pre : List UpdateArgs) (d : String) : List UpdateArgs × RunResult :=
  (pre ++ [failUpdate d], RunResult.failed d)

/-- Steps 5-6 of `process_job` (compose, optional avatar overlay,
completion), given the updates persisted so far, the generated slides,
images and audio list. -/
def process_from_compose (env : PipelineEnv) (job : JobInput) (pre : List UpdateArgs)
    (slides : List Slide) (imgs : List String) (audio_files : List AudioInfo) :
    List UpdateArgs × RunResult :=
  let t9 := pre ++ [updP JobStatus.COMPOSING_VIDEO 80 "Composing video..."]
  match compose_video_stage env imgs audio_files with
  | ComposeResult.err msg => failTrace t9 ("Failed to compose video: " ++ msg)
  | ComposeResult.ok path dur _ =>
    let withAvatar : Bool :=
      match job.avatar_option with
      | some opt => opt ≠ AvatarOption.NONE
      | none => false
    let t10 :=
      if withAvatar then t9 ++ [updP JobStatus.COMPOSING_VIDEO 90 "Adding avatar overlay..."]
      else t9
    let final_video_path :=
      if withAvatar then (add_avatar env).getD path else path
    let uDone : UpdateArgs :=
      { status := JobStatus.COMPLETED, progress := some 100,
        message := some "Video generation complete!", error := none,
        slide_script := none, slide_images := none,
        video_path := some final_video_path }
    (t10 ++ [uDone], RunResult.ok final_video_path dur slides.length)

/-- Steps 2-4 of `process_job` (script, slide images, audio), entered after
a successful parse. -/
def process_from_script (env : PipelineEnv) (job : JobInput) (pre : List UpdateArgs)
    (pc : ParsedContent) : List UpdateArgs × RunResult :=
  let t3 := pre ++ [updP JobStatus.GENERATING_SCRIPT 20 "Generating presentation script with AI..."]
  let slides := generate_slide_script env.llmResult job.title (sections_text pc.text pc.sections)
  let uScript : UpdateArgs :=
    { status := JobStatus.GENERATING_SCRIPT, progress := some 35,
      message := some ("Generated " ++ toString slides.length ++ " slides"),
      error := none, slide_script := some slides, slide_images := none, video_path := none }
  let t4 := t3 ++ [uScript]
  let t5 := t4 ++ [updP JobStatus.GENERATING_SLIDES 40 "Creating slide images..."]
  match env.imagesResult with
  | Except.error d => failTrace t5 d
  | Except.ok imgs =>
    let uImgs : UpdateArgs :=
      { status := JobStatus.GENERATING_SLIDES, progress := some 55,
        message := some ("Created " ++ toString imgs.length ++ " slide images"),
        error := none, slide_script := none, slide_images := some imgs, video_path := none }
    let t6 := t5 ++ [uImgs]
    let t7 := t6 ++ [updP JobStatus.GENERATING_AUDIO 60 "Generating voiceover..."]
    match env.audioResult with
    | Except.error d => failTrace t7 d
    | Except.ok ar =>
      if ar.success = false then
        failTrace t7 ("Failed to generate audio: " ++ ar.error.getD "Unknown error")
      else
        let audio_files := effective_audio_files env ar
        let t8 := t7 ++ [updP JobStatus.GENERATING_AUDIO 75 "Voiceover generated"]
        process_from_compose env job t8 slides imgs audio_files

/-- Shallow embedding of `JobProcessor.process_job`: the ordered list of
`update_job_status` calls performed, paired with the returned result. -/
def process_job (env : PipelineEnv) (job : JobInput) : List UpdateArgs × RunResult :=
  let t1 := [updP JobStatus.PARSING 5 "Parsing document..."]
  match parse_stage env with
  | Except.error d => failTrace t1 d
  | Except.ok pc =>
    let t2 := t1 ++ [updP JobStatus.PARSING 15 "Document parsed successfully"]
    process_from_script env job t2 pc

/-- The job record after the run, starting from stored record `r0`. -/
def final_record (env : PipelineEnv) (job : JobInput) (r0 : JobRecord) : JobRecord :=
  (process_job env job).1.foldl update_job r0

/-- The sequence of persisted records observed by a reader: `r0` before the
run, then the record after each `update_job_status` call. -/
def record_trace (r : JobRecord) : List UpdateArgs → List JobRecord
  | [] => [r]
  | u :: us => r :: record_trace (update_job r u) us

/-- The persisted `progress` values over one run, in commit order. -/
def progress_trace (env : PipelineEnv) (job : JobInput) (r0 : JobRecord) : List Nat :=
  (record_trace r0 (process_job env job).1).map (fun r => r.progress)

/-!
Retry route (`backend/app/routes/jobs.py::retry_job`).
-/

/-- HTTP-level outcome of the retry request (the 404/invalid-id guards are
outside the claims' scope; the record exists). -/
inductive RetryResponse
  | accepted
  | rejected (detail : String)
deriving DecidableEq

/-- The explicit allow-list of `retry_job`: FAILED or any intermediate
in-progress stage. -/
def retry_allowed : List JobStatus :=
  [JobStatus.FAILED, JobStatus.PARSING, JobStatus.GENERATING_SCRIPT,
   JobStatus.GENERATING_SLIDES, JobStatus.GENERATING_AUDIO, JobStatus.COMPOSING_VIDEO]

/-- Shallow embedding of `retry_job`: a status outside the allow-list is
rejected with an HTTP 400 (COMPLETED and PENDING are the only such statuses
of the closed enum); an allowed status is reset to PENDING with
`progress = 0`, `error_message = None` and a fresh status message. -/
def retry_job (job : JobRecord) : RetryResponse × JobRecord :=
  if job.status ∈ retry_allowed then
    (RetryResponse.accepted,
      { job with status := JobStatus.PENDING, progress := 0, error_message := none,
                 status_message := some "Job reset, retrying..." })
  else if job.status = JobStatus.COMPLETED then
    (RetryResponse.rejected "Job already completed", job)
  else
    (RetryResponse.rejected "Job is already pending", job)

/-!
Helper lemmas.
-/

theorem update_job_status_eq (r : JobRecord) (u : UpdateArgs) :
    (update_job r u).status = u.status := rfl

theorem update_job_progress_eq (r : JobRecord) (u : UpdateArgs) :
    (update_job r u).progress = u.progress.getD r.progress := rfl

theorem update_job_error_eq (r : JobRecord) (u : UpdateArgs) :
    (update_job r u).error_message =
      match u.error with
      | some e => if e = "" then r.error_message else some e
      | none => r.error_message := rfl

theorem foldl_update_concat (r : JobRecord) (us : List UpdateArgs) (u : UpdateArgs) :
    (us ++ [u]).foldl update_job r = update_job (us.foldl update_job r) u := by
  simp [List.foldl_append]

theorem slide_videos_length (env : ComposeEnv) (amap : Nat → Option AudioInfo) :
    ∀ (i : Nat) (imgs : List String),
      (slide_videos env amap i imgs).length + dropped_units env amap i imgs = imgs.length := by
  intro i imgs
  induction imgs generalizing i with
  | nil => simp [slide_videos, dropped_units]
  | cons img rest ih =>
    cases h : slideUnit env amap i img with
    | some s =>
      have := ih (i + 1)
      simp only [slide_videos, dropped_units, h, List.length_cons]
      omega
    | none =>
      have := ih (i + 1)
      simp only [slide_videos, dropped_units, h, List.length_cons]
      omega

/-- Expected segment list for a run in which every slide is rendered by the
no-audio branch: one silent 5.0-second segment per slide, in order. -/
def silent_segments : Nat → List String → List Segment
  | _, [] => []
  | i, _ :: rest => Segment.silent (i + 1) 5 :: silent_segments (i + 1) rest

theorem silent_segments_length : ∀ (i : Nat) (imgs : List String),
    (silent_segments i imgs).length = imgs.length := by
  intro i imgs
  induction imgs generalizing i with
  | nil => rfl
  | cons img rest ih => simp [silent_segments, ih]

theorem slide_videos_no_audio (env : ComposeEnv)
    (h : ∀ j, env.silentEncodeExit j = 0) :
    ∀ (i : Nat) (imgs : List String),
      slide_videos env (audio_map []) i imgs = silent_segments i imgs := by
  intro i imgs
  induction imgs generalizing i with
  | nil => rfl
  | cons img rest ih =>
    have hu : slideUnit env (audio_map []) i img = some (Segment.silent (i + 1) 5) := by
      simp [slideUnit, audio_map, audioCandidate, create_slide_video_no_audio, h]
    simp [slide_videos, hu, silent_segments, ih]

/-!
Claim theorems.
-/

/-- C3: for every audio clip whose slide index matches an existing slide
image and whose file exists and is non-empty, the segment rendered for that
slide is audio-backed with requested duration equal to the probed audio
duration plus the fixed 0.5-second buffer (the value the composer passes to
the encoder as `-t`). -/
theorem C3_segment_duration (env : ComposeEnv) (amap : Nat → Option AudioInfo)
    (i : Nat) (img : String) (ai : AudioInfo) (p : String) (d : ℚ)
    (hmap : amap (i + 1) = some ai) (hpath : ai.path = some p) (hpne : p ≠ "")
    (hax : env.fexists p = true) (hsz : env.fsize p ≠ 0)
    (himg : env.fexists img = true) (hprobe : env.probe p = some d)
    (hexit : env.audioEncodeExit i = 0) (hout : env.audioOutputExists i = true) :
    slideUnit env amap i img = some (Segment.audioBacked (i + 1) (d + 1/2)) := by
  simp [slideUnit, audioCandidate, hmap, hpath, hpne, hax, hsz,
    create_slide_video, mkEncodeEnv, himg, hexit, hout, get_audio_duration, hprobe]

/-- Concrete composer environment for the C3 witness: one slide `s.png`
with one matching audio clip `a.mp3` probed at 2 seconds, all encodes
succeeding. -/
def c3Env : ComposeEnv :=
  { fexists := fun s => s = "a.mp3" ∨ s = "s.png"
    fsize := fun s => if s = "a.mp3" then 10 else 1
    probe := fun s => if s = "a.mp3" then some 2 else none
    audioEncodeExit := fun _ => 0
    audioOutputExists := fun _ => true
    silentEncodeExit := fun _ => 0
    concatExit := 0
    concatStderr := ""
    concatOutputExists := true
    outProbe := some 2 }

/-- Witness for C3 at a concrete input. -/
theorem C3_segment_duration_witness :
    audio_map [{ slide_number := 1, path := some "a.mp3" }] 1
        = some { slide_number := 1, path := some "a.mp3" } ∧
    c3Env.fexists "a.mp3" = true ∧ c3Env.fsize "a.mp3" ≠ 0 ∧
    c3Env.fexists "s.png" = true ∧ c3Env.probe "a.mp3" = some 2 ∧
    c3Env.audioEncodeExit 0 = 0 ∧ c3Env.audioOutputExists 0 = true ∧
    slideUnit c3Env (audio_map [{ slide_number := 1, path := some "a.mp3" }]) 0 "s.png"
        = some (Segment.audioBacked 1 ((2 : ℚ) + 1/2)) :=
  ⟨rfl, by decide, by decide, by decide, by decide, rfl, rfl,
    C3_segment_duration c3Env _ 0 "s.png" _ "a.mp3" 2 rfl rfl (by decide)
      (by decide) (by decide) (by decide) (by decide) rfl rfl⟩

/-- C10: when the ffprobe invocation fails or its output cannot be parsed,
`_get_audio_duration` returns the constant 30.0 instead of an error;
consequently an audio-backed slide segment is requested with duration
30.0 + 0.5 and the final concatenation reports a duration of 30.0, both
silently standing in for a measured value. -/
theorem C10_probe_default (e : EncodeEnv) (env : ComposeEnv) (segs : List Segment)
    (out : String) (hp : e.probe = none) (h1 : e.slideExists = true)
    (h2 : e.audioExists = true) (h3 : e.audioSize ≠ 0) (h4 : e.encodeExit = 0)
    (h5 : e.outputExists = true) (hop : env.outProbe = none) (hc : env.concatExit = 0) :
    get_audio_duration e.probe = 30 ∧
    create_slide_video e = SlideVideoResult.ok ((30 : ℚ) + 1/2) ∧
    concatenate_videos env segs out = ComposeResult.ok out 30 segs.length := by
  refine ⟨by simp [get_audio_duration, hp], ?_, ?_⟩
  · simp [create_slide_video, h1, h2, h3, h4, h5, get_audio_duration, hp]
  · simp [concatenate_videos, hc, get_audio_duration, hop]

/-- Concrete environment for the C10 witness: ffprobe fails everywhere. -/
def c10Env : ComposeEnv :=
  { fexists := fun _ => true
    fsize := fun _ => 1
    probe := fun _ => none
    audioEncodeExit := fun _ => 0
    audioOutputExists := fun _ => true
    silentEncodeExit := fun _ => 0
    concatExit := 0
    concatStderr := ""
    concatOutputExists := true
    outProbe := none }

/-- Witness for C10 at a concrete input. -/
theorem C10_probe_default_witness :
    (mkEncodeEnv c10Env 0 "s.png" "a.mp3").probe = none ∧
    c10Env.outProbe = none ∧ c10Env.concatExit = 0 ∧
    (get_audio_duration (mkEncodeEnv c10Env 0 "s.png" "a.mp3").probe = 30 ∧
     create_slide_video (mkEncodeEnv c10Env 0 "s.png" "a.mp3")
        = SlideVideoResult.ok ((30 : ℚ) + 1/2) ∧
     concatenate_videos c10Env [Segment.silent 1 5] "out.mp4"
        = ComposeResult.ok "out.mp4" 30 1) :=
  ⟨rfl, rfl, rfl,
    C10_probe_default (mkEncodeEnv c10Env 0 "s.png" "a.mp3") c10Env
      [Segment.silent 1 5] "out.mp4" rfl rfl rfl (by decide) rfl rfl rfl rfl⟩

/-- Concrete environment for the C8 counterexample: the concatenation run
exits 0 but its expected output file is absent. -/
def c8Env : ComposeEnv :=
  { fexists := fun _ => true
    fsize := fun _ => 1
    probe := fun _ => none
    audioEncodeExit := fun _ => 0
    audioOutputExists := fun _ => true
    silentEncodeExit := fun _ => 0
    concatExit := 0
    concatStderr := ""
    concatOutputExists := false
    outProbe := none }

/-- C8 counterexample: the concatenation step of the Video Composer reports
success on an exit-0 run even though the expected output file is absent
(`_concatenate_videos` returns the success dict on `returncode == 0` with no
output-file check), refuting the claim that every encode invocation with a
missing output is classified as a failure. -/
theorem C8_missing_output_counterexample :
    c8Env.concatOutputExists = false ∧
    concatenate_videos c8Env [Segment.silent 1 5] "out.mp4"
      = ComposeResult.ok "out.mp4" 30 1 :=
  ⟨rfl, rfl⟩

/-- C8 as amended: only the audio-backed per-slide render
(`create_slide_video`) classifies a missing output after an exit-0 run as a
failure; the final concatenation reports success on exit code 0 regardless
of whether its output file exists. -/
theorem C8_missing_output_amended (e : EncodeEnv) (env : ComposeEnv)
    (segs : List Segment) (out : String)
    (h1 : e.slideExists = true) (h2 : e.audioExists = true) (h3 : e.audioSize ≠ 0)
    (h4 : e.encodeExit = 0) (h5 : e.outputExists = false) (hc : env.concatExit = 0) :
    create_slide_video e
        = SlideVideoResult.outputMissing (get_audio_duration e.probe + 1/2) ∧
    concatenate_videos env segs out
        = ComposeResult.ok out (get_audio_duration env.outProbe) segs.length := by
  constructor
  · simp [create_slide_video, h1, h2, h3, h4, h5]
  · simp [concatenate_videos, hc]

/-- Witness for the amended C8 at a concrete input. -/
theorem C8_missing_output_amended_witness :
    (({ slideExists := true, audioExists := true, audioSize := 3, probe := some 2,
        encodeExit := 0, outputExists := false } : EncodeEnv).audioSize ≠ 0) ∧
    c8Env.concatExit = 0 ∧
    (create_slide_video
        { slideExists := true, audioExists := true, audioSize := 3, probe := some 2,
          encodeExit := 0, outputExists := false }
        = SlideVideoResult.outputMissing ((2 : ℚ) + 1/2) ∧
     concatenate_videos c8Env [] "out.mp4" = ComposeResult.ok "out.mp4" 30 0) :=
  ⟨by decide, rfl,
    C8_missing_output_amended
      { slideExists := true, audioExists := true, audioSize := 3, probe := some 2,
        encodeExit := 0, outputExists := false }
      c8Env [] "out.mp4" rfl rfl (by decide) rfl rfl rfl⟩

/-- C6: calling `create_slideshow_video` with N ≥ 1 slide images and an
empty audio-clip list renders exactly N silent segments of the default
5.0-second duration, in original slide order, and (when every silent encode
and the concatenation succeed) composes them into a successful output of
N segments. -/
theorem C6_silent_slideshow (env : ComposeEnv) (imgs : List String) (out : String)
    (hs : ∀ j, env.silentEncodeExit j = 0) (hc : env.concatExit = 0)
    (hne : imgs ≠ []) :
    slide_videos env (audio_map []) 0 imgs = silent_segments 0 imgs ∧
    create_slideshow_video env imgs [] out
      = ComposeResult.ok out (get_audio_duration env.outProbe) imgs.length := by
  have hsv := slide_videos_no_audio env hs 0 imgs
  refine ⟨hsv, ?_⟩
  have hlen : (silent_segments 0 imgs).length = imgs.length := silent_segments_length 0 imgs
  have hnonempty : (silent_segments 0 imgs).isEmpty = false := by
    cases imgs with
    | nil => exact absurd rfl hne
    | cons a l => simp [silent_segments]
  simp [create_slideshow_video, hsv, hnonempty, concatenate_videos, hc, hlen]

/-- Concrete environment for the C6 witness. -/
def c6Env : ComposeEnv :=
  { fexists := fun _ => true
    fsize := fun _ => 1
    probe := fun _ => none
    audioEncodeExit := fun _ => 0
    audioOutputExists := fun _ => true
    silentEncodeExit := fun _ => 0
    concatExit := 0
    concatStderr := ""
    concatOutputExists := true
    outProbe := some 10 }

/-- Witness for C6 at a concrete input: two images, no audio clips. -/
theorem C6_silent_slideshow_witness :
    (∀ j, c6Env.silentEncodeExit j = 0) ∧ c6Env.concatExit = 0 ∧
    (["a.png", "b.png"] : List String) ≠ [] ∧
    (slide_videos c6Env (audio_map []) 0 ["a.png", "b.png"]
        = [Segment.silent 1 5, Segment.silent 2 5] ∧
     create_slideshow_video c6Env ["a.png", "b.png"] [] "out.mp4"
        = ComposeResult.ok "out.mp4" 10 2) :=
  ⟨fun _ => rfl, rfl, by decide,
    C6_silent_slideshow c6Env ["a.png", "b.png"] "out.mp4" (fun _ => rfl) rfl (by decide)⟩

/-- Concrete environment for the C2 counterexample: slide 1 has a matching,
existing, non-empty audio clip, but its audio-backed encode exits non-zero;
every no-audio encode and the concatenation succeed. -/
def c2Env : ComposeEnv :=
  { fexists := fun s => s = "a.png" ∨ s = "b.png" ∨ s = "a.mp3"
    fsize := fun s => if s = "a.mp3" then 10 else 1
    probe := fun _ => some 3
    audioEncodeExit := fun _ => 1
    audioOutputExists := fun _ => true
    silentEncodeExit := fun _ => 0
    concatExit := 0
    concatStderr := ""
    concatOutputExists := true
    outProbe := some 10 }

/-- C2 counterexample: a per-slide segment encode failure does not cause
the slide to be dropped.  With two slides and exactly one unit failure (the
audio-backed encode of slide 1 exits 1), the loop falls through to the
no-audio branch, re-renders slide 1 as a silent segment, and the composed
result has 2 segments, not N − 1 = 1 as the claim states. -/
theorem C2_drop_counterexample :
    c2Env.audioEncodeExit 0 ≠ 0 ∧
    audioCandidate c2Env (audio_map [{ slide_number := 1, path := some "a.mp3" }] 1)
      = some "a.mp3" ∧
    slide_videos c2Env (audio_map [{ slide_number := 1, path := some "a.mp3" }]) 0
        ["a.png", "b.png"]
      = [Segment.silent 1 5, Segment.silent 2 5] ∧
    create_slideshow_video c2Env ["a.png", "b.png"]
        [{ slide_number := 1, path := some "a.mp3" }] "out.mp4"
      = ComposeResult.ok "out.mp4" 10 2 :=
  ⟨by decide, by decide, by decide, by decide⟩

/-- C2 as amended: an audio-backed encode failure first falls back to
rendering the slide as a silent segment; a slide is dropped only when every
encode attempted for it fails.  For any input whose loop drops exactly one
slide unit, with the concatenation succeeding: when N > 1 the result is a
successful composed video of N − 1 segments, and when N = 1 (so the drop
leaves zero segments) composition fails with "No slide videos created". -/
theorem C2_drop_amended (env : ComposeEnv) (imgs : List String)
    (audios : List AudioInfo) (out : String)
    (hdrop : dropped_units env (audio_map audios) 0 imgs = 1)
    (hc : env.concatExit = 0) :
    (1 < imgs.length →
      create_slideshow_video env imgs audios out
        = ComposeResult.ok out (get_audio_duration env.outProbe) (imgs.length - 1)) ∧
    (imgs.length = 1 →
      create_slideshow_video env imgs audios out
        = ComposeResult.err "No slide videos created") := by
  have hlen := slide_videos_length env (audio_map audios) 0 imgs
  rw [hdrop] at hlen
  constructor
  · intro hN
    have hl : (slide_videos env (audio_map audios) 0 imgs).length = imgs.length - 1 := by omega
    have hnonempty : (slide_videos env (audio_map audios) 0 imgs).isEmpty = false := by
      rcases hv : slide_videos env (audio_map audios) 0 imgs with _ | ⟨a, l⟩
      · rw [hv] at hl; simp at hl; omega
      · simp
    simp [create_slideshow_video, hnonempty, concatenate_videos, hc, hl]
  · intro hN
    have hl : (slide_videos env (audio_map audios) 0 imgs).length = 0 := by omega
    have hempty : (slide_videos env (audio_map audios) 0 imgs).isEmpty = true := by
      rcases hv : slide_videos env (audio_map audios) 0 imgs with _ | ⟨a, l⟩
      · simp
      · rw [hv] at hl; simp at hl
    simp [create_slideshow_video, hempty]

/-- Concrete environment for the C2-amended witness: the no-audio encode of
slide index 0 fails, everything else succeeds. -/
def c2wEnv : ComposeEnv :=
  { fexists := fun _ => true
    fsize := fun _ => 1
    probe := fun _ => none
    audioEncodeExit := fun _ => 0
    audioOutputExists := fun _ => true
    silentEncodeExit := fun j => if j = 0 then 1 else 0
    concatExit := 0
    concatStderr := ""
    concatOutputExists := true
    outProbe := some 7 }

/-- Witness for the amended C2 at a concrete input: two slides with no
audio, the first slide's encode fails, composition succeeds with 1 segment. -/
theorem C2_drop_amended_witness :
    dropped_units c2wEnv (audio_map []) 0 ["a.png", "b.png"] = 1 ∧
    c2wEnv.concatExit = 0 ∧ 1 < (["a.png", "b.png"] : List String).length ∧
    create_slideshow_video c2wEnv ["a.png", "b.png"] [] "out.mp4"
      = ComposeResult.ok "out.mp4" 7 1 :=
  ⟨by decide, rfl, by decide,
    (C2_drop_amended c2wEnv ["a.png", "b.png"] [] "out.mp4" (by decide) rfl).1 (by decide)⟩

/-- C5: the retry operation is rejected with a precondition error when the
job's status is COMPLETED or PENDING, and accepted when the status is
FAILED or any intermediate in-progress stage; on acceptance it resets
progress to 0, clears the error message, and sets the status back to
PENDING. -/
theorem C5_retry_preconditions (j : JobRecord) :
    ((j.status = JobStatus.COMPLETED ∨ j.status = JobStatus.PENDING) →
      ∃ d, (retry_job j).1 = RetryResponse.rejected d) ∧
    (j.status ∈ retry_allowed →
      (retry_job j).1 = RetryResponse.accepted ∧
      (retry_job j).2.status = JobStatus.PENDING ∧
      (retry_job j).2.progress = 0 ∧
      (retry_job j).2.error_message = none) := by
  constructor
  · rintro (h | h) <;> rw [retry_job] <;> simp [h, retry_allowed]
  · intro h
    rw [retry_job]
    simp [h]

/-- Concrete record for the C5 witness: a FAILED job with a stored error
message. -/
def c5Job : JobRecord :=
  { status := JobStatus.FAILED, progress := 0,
    status_message := some "Job failed",
    error_message := some "boom", slide_script := none, slide_images := none,
    video_path := none }

/-- Witness for C5 at a concrete input: a FAILED job with a stored error
message is accepted and reset. -/
theorem C5_retry_preconditions_witness :
    c5Job.status ∈ retry_allowed ∧
    ((retry_job c5Job).1 = RetryResponse.accepted ∧
     (retry_job c5Job).2.status = JobStatus.PENDING ∧
     (retry_job c5Job).2.progress = 0 ∧
     (retry_job c5Job).2.error_message = none) :=
  ⟨by decide, (C5_retry_preconditions c5Job).2 (by decide)⟩

/-- Concrete all-success pipeline environment, used by several witnesses:
a one-slide script renders to the single image `s1.png` (one image per
slide, as `generate_slide_images` produces), every encode succeeds, and
avatar generation fails. -/
def c7RawSlide : RawSlide :=
  { slide_number := some 1, title := some "Intro", bullet_points := ["p"],
    narration := some "Welcome.", notes := none, visual_suggestion := none }

def c7Env : PipelineEnv :=
  { parseResult := Except.ok { text := "alpha beta", sections := [], figures := [], error := none }
    llmResult := Except.ok [c7RawSlide]
    imagesResult := Except.ok ["s1.png"]
    audioResult := Except.ok { success := true, error := none, audio_files := [] }
    introOk := false
    composerInitOk := true
    composeEnv := c6Env
    avatarGenOk := false
    overlayExit := 1
    overlayStderr := "" }

/-- Job input used by the concrete orchestrator runs. -/
def c7Job : JobInput := { title := "Doc", avatar_option := some AvatarOption.NONE }

/-- Concrete pipeline environment for the C7 counterexample: the LLM body
succeeds but its response parses to an empty JSON array, so the slide
renderer (one image per input slide) returns the empty image list. -/
def c7cexEnv : PipelineEnv :=
  { parseResult := Except.ok { text := "alpha beta", sections := [], figures := [], error := none }
    llmResult := Except.ok []
    imagesResult := Except.ok []
    audioResult := Except.ok { success := true, error := none, audio_files := [] }
    introOk := false
    composerInitOk := true
    composeEnv := c6Env
    avatarGenOk := false
    overlayExit := 1
    overlayStderr := "" }

/-- C7 counterexample: when the script generator's LLM call succeeds but
its response parses to an empty sequence, `generate_slide_script` returns
the empty list (the fallback skeleton is substituted only on a raised
exception), the orchestrator persists the empty slide script and continues
into slide rendering with zero slides, and the run ends FAILED at
composition with "Failed to compose video: No slide videos created" —
refuting the claim that the fallback skeleton is substituted before slide
rendering begins whenever the generator returns an empty sequence. -/
theorem C7_empty_script_counterexample :
    generate_slide_script (Except.ok []) "Doc" "alpha beta" = [] ∧
    (final_record c7cexEnv c7Job initialJob).slide_script = some [] ∧
    (process_job c7cexEnv c7Job).2
        = RunResult.failed "Failed to compose video: No slide videos created" ∧
    (final_record c7cexEnv c7Job initialJob).status = JobStatus.FAILED :=
  ⟨rfl, by decide, by decide, by decide⟩

/-- C7 as amended: the fixed 6-slide fallback skeleton (one title slide
plus five section slides) is substituted only when the generation body
raises a failure; a successful generation that parses to an empty sequence
is validated and returned as the empty list, which the orchestrator passes
on unchecked — slide rendering then produces zero images and the run ends
FAILED at composition with "No slide videos created". -/
theorem C7_empty_script_amended (d title content : String) (raw : List RawSlide)
    (env : PipelineEnv) (job : JobInput) (pc : ParsedContent) (ar : AudioGenResult)
    (h1 : parse_stage env = Except.ok pc)
    (h2 : env.llmResult = Except.ok [])
    (h3 : env.imagesResult = Except.ok [])
    (h4 : env.audioResult = Except.ok ar)
    (h5 : ar.success = true)
    (h6 : env.composerInitOk = true) :
    generate_slide_script (Except.error d) title content
        = generate_fallback_slides title content ∧
    (generate_fallback_slides title content).length = 6 ∧
    (generate_fallback_slides title content).head?.map (fun s => s.slide_number) = some 1 ∧
    generate_slide_script (Except.ok raw) title content = validate_slides raw ∧
    (process_job env job).2
        = RunResult.failed "Failed to compose video: No slide videos created" := by
  refine ⟨rfl, rfl, rfl, rfl, ?_⟩
  simp only [process_job, process_from_script, process_from_compose, compose_video_stage,
    create_slideshow_video, slide_videos, h1, h2, h3, h4, h5, h6,
    Bool.true_eq_false, if_false, eq_self_iff_true, if_true, failTrace,
    List.isEmpty_nil]
  rfl

/-- Witness for the amended C7 at a concrete input. -/
theorem C7_empty_script_amended_witness :
    parse_stage c7cexEnv
        = Except.ok { text := "alpha beta", sections := [], figures := [], error := none } ∧
    c7cexEnv.llmResult = Except.ok [] ∧
    c7cexEnv.imagesResult = Except.ok [] ∧
    c7cexEnv.audioResult = Except.ok { success := true, error := none, audio_files := [] } ∧
    c7cexEnv.composerInitOk = true ∧
    (generate_slide_script (Except.error "llm down") "Doc" "alpha beta"
        = generate_fallback_slides "Doc" "alpha beta" ∧
     (generate_fallback_slides "Doc" "alpha beta").length = 6 ∧
     (generate_fallback_slides "Doc" "alpha beta").head?.map (fun s => s.slide_number)
        = some 1 ∧
     generate_slide_script (Except.ok []) "Doc" "alpha beta" = validate_slides [] ∧
     (process_job c7cexEnv c7Job).2
        = RunResult.failed "Failed to compose video: No slide videos created") :=
  ⟨rfl, rfl, rfl, rfl, rfl,
    C7_empty_script_amended "llm down" "Doc" "alpha beta" [] c7cexEnv c7Job
      { text := "alpha beta", sections := [], figures := [], error := none }
      { success := true, error := none, audio_files := [] } rfl rfl rfl rfl rfl rfl⟩

theorem compose_failed_shape (env : PipelineEnv) (job : JobInput) (pre : List UpdateArgs)
    (slides : List Slide) (imgs : List String) (afs : List AudioInfo) (d : String)
    (h : (process_from_compose env job pre slides imgs afs).2 = RunResult.failed d)
    (hpre : ∀ u ∈ pre, u.status ≠ JobStatus.COMPLETED) :
    (∃ tr, (process_from_compose env job pre slides imgs afs).1 = tr ++ [failUpdate d]) ∧
    (∀ u ∈ (process_from_compose env job pre slides imgs afs).1,
      u.status ≠ JobStatus.COMPLETED) := by
  unfold process_from_compose at h ⊢
  cases hcv : compose_video_stage env imgs afs with
  | err msg =>
    simp only [hcv, failTrace] at h ⊢
    injection h with hd
    subst hd
    refine ⟨⟨_, rfl⟩, ?_⟩
    intro u hu
    simp only [List.mem_append, List.mem_singleton] at hu
    rcases hu with (hu | rfl) | rfl
    · exact hpre u hu
    · simp [updP]
    · simp [failUpdate]
  | ok path dur k =>
    simp only [hcv] at h
    simp at h

theorem script_failed_shape (env : PipelineEnv) (job : JobInput) (pre : List UpdateArgs)
    (pc : ParsedContent) (d : String)
    (h : (process_from_script env job pre pc).2 = RunResult.failed d)
    (hpre : ∀ u ∈ pre, u.status ≠ JobStatus.COMPLETED) :
    (∃ tr, (process_from_script env job pre pc).1 = tr ++ [failUpdate d]) ∧
    (∀ u ∈ (process_from_script env job pre pc).1,
      u.status ≠ JobStatus.COMPLETED) := by
  unfold process_from_script at h ⊢
  cases him : env.imagesResult with
  | error d0 =>
    simp only [him, failTrace] at h ⊢
    injection h with hd
    subst hd
    refine ⟨⟨_, rfl⟩, ?_⟩
    intro u hu
    simp only [List.mem_append, List.mem_singleton] at hu
    rcases hu with ((((hu | rfl) | rfl) | rfl) | rfl)
    · exact hpre u hu
    · simp [updP]
    · simp
    · simp [updP]
    · simp [failUpdate]
  | ok imgs =>
    simp only [him] at h ⊢
    cases har : env.audioResult with
    | error d0 =>
      simp only [har, failTrace] at h ⊢
      injection h with hd
      subst hd
      refine ⟨⟨_, rfl⟩, ?_⟩
      intro u hu
      simp only [List.mem_append, List.mem_singleton] at hu
      rcases hu with ((((((hu | rfl) | rfl) | rfl) | rfl) | rfl) | rfl)
      · exact hpre u hu
      · simp [updP]
      · simp
      · simp [updP]
      · simp
      · simp [updP]
      · simp [failUpdate]
    | ok ar =>
      simp only [har] at h ⊢
      cases hsu : ar.success with
      | false =>
        simp only [hsu, eq_self_iff_true, if_true, failTrace] at h ⊢
        injection h with hd
        subst hd
        refine ⟨⟨_, rfl⟩, ?_⟩
        intro u hu
        simp only [List.mem_append, List.mem_singleton] at hu
        rcases hu with ((((((hu | rfl) | rfl) | rfl) | rfl) | rfl) | rfl)
        · exact hpre u hu
        · simp [updP]
        · simp
        · simp [updP]
        · simp
        · simp [updP]
        · simp [failUpdate]
      | true =>
        simp only [hsu, Bool.true_eq_false, if_false] at h ⊢
        refine compose_failed_shape env job _ _ imgs (effective_audio_files env ar) d h ?_
        intro u hu
        simp only [List.mem_append, List.mem_singleton] at hu
        rcases hu with ((((((hu | rfl) | rfl) | rfl) | rfl) | rfl) | rfl)
        · exact hpre u hu
        · simp [updP]
        · simp
        · simp [updP]
        · simp
        · simp [updP]
        · simp [updP]

theorem process_job_failed_shape (env : PipelineEnv) (job : JobInput) (d : String)
    (h : (process_job env job).2 = RunResult.failed d) :
    (∃ tr, (process_job env job).1 = tr ++ [failUpdate d]) ∧
    (∀ u ∈ (process_job env job).1, u.status ≠ JobStatus.COMPLETED) := by
  unfold process_job at h ⊢
  cases hps : parse_stage env with
  | error d0 =>
    simp only [hps, failTrace] at h ⊢
    injection h with hd
    subst hd
    refine ⟨⟨_, rfl⟩, ?_⟩
    intro u hu
    simp only [List.mem_append, List.mem_singleton, List.mem_cons,
      List.not_mem_nil, or_false] at hu
    rcases hu with rfl | rfl
    · simp [updP]
    · simp [failUpdate]
  | ok pc =>
    simp only [hps] at h ⊢
    refine script_failed_shape env job _ pc d h ?_
    intro u hu
    simp only [List.mem_append, List.mem_singleton, List.mem_cons,
      List.not_mem_nil, or_false] at hu
    rcases hu with rfl | rfl <;> simp [updP]

/-- Concrete pipeline environment for the C1 counterexample: the document
parse stage raises an exception whose `str` is the empty string. -/
def c1Env : PipelineEnv :=
  { parseResult := Except.error ""
    llmResult := Except.ok []
    imagesResult := Except.ok []
    audioResult := Except.ok { success := true, error := none, audio_files := [] }
    introOk := false
    composerInitOk := true
    composeEnv := c6Env
    avatarGenOk := false
    overlayExit := 1
    overlayStderr := "" }

/-- C1 counterexample: when a stage raises a failure whose diagnostic text
is empty (`str(e) = ""`, e.g. a bare `Exception()`), the run is persisted
FAILED with progress 0, but the truthiness guard `if error:` in
`update_job_status` skips the empty diagnostic, so the stored
`error_message` keeps its previous value (`None`) instead of the failure's
diagnostic text — refuting the claim that the diagnostic text is always
persisted as the error message. -/
theorem C1_failed_persistence_counterexample :
    (process_job c1Env c7Job).2 = RunResult.failed "" ∧
    (final_record c1Env c7Job initialJob).status = JobStatus.FAILED ∧
    (final_record c1Env c7Job initialJob).progress = 0 ∧
    (final_record c1Env c7Job initialJob).error_message = none :=
  ⟨rfl, rfl, rfl, rfl⟩

/-- C1 as amended: on any unhandled stage failure with diagnostic `d`, the
run stops — the FAILED update is the last persisted update, no COMPLETED
status is ever persisted — and the final record has status FAILED,
progress 0, and, whenever `d` is non-empty, `d` as its error message (an
empty diagnostic leaves the previous error message in place). -/
theorem C1_failed_persistence_amended (env : PipelineEnv) (job : JobInput)
    (r0 : JobRecord) (d : String)
    (h : (process_job env job).2 = RunResult.failed d) :
    (final_record env job r0).status = JobStatus.FAILED ∧
    (final_record env job r0).progress = 0 ∧
    (d ≠ "" → (final_record env job r0).error_message = some d) ∧
    (process_job env job).1.getLast? = some (failUpdate d) ∧
    (∀ u ∈ (process_job env job).1, u.status ≠ JobStatus.COMPLETED) := by
  obtain ⟨⟨tr, htr⟩, hall⟩ := process_job_failed_shape env job d h
  have hfold : final_record env job r0 = update_job (tr.foldl update_job r0) (failUpdate d) := by
    rw [final_record, htr, foldl_update_concat]
  refine ⟨?_, ?_, ?_, ?_, hall⟩
  · rw [hfold]; rfl
  · rw [hfold]; rfl
  · intro hd
    rw [hfold, update_job_error_eq]
    simp [failUpdate, hd]
  · rw [htr]
    simp

/-- Concrete pipeline environment for the C1-amended witness: the slide
image stage raises with a non-empty diagnostic. -/
def c1wEnv : PipelineEnv :=
  { parseResult := Except.ok { text := "alpha beta", sections := [], figures := [], error := none }
    llmResult := Except.ok []
    imagesResult := Except.error "disk full"
    audioResult := Except.ok { success := true, error := none, audio_files := [] }
    introOk := false
    composerInitOk := true
    composeEnv := c6Env
    avatarGenOk := false
    overlayExit := 1
    overlayStderr := "" }

/-- Witness for the amended C1 at a concrete input. -/
theorem C1_failed_persistence_amended_witness :
    (process_job c1wEnv c7Job).2 = RunResult.failed "disk full" ∧
    ((final_record c1wEnv c7Job initialJob).status = JobStatus.FAILED ∧
     (final_record c1wEnv c7Job initialJob).progress = 0 ∧
     ("disk full" ≠ "" → (final_record c1wEnv c7Job initialJob).error_message
        = some "disk full") ∧
     (process_job c1wEnv c7Job).1.getLast? = some (failUpdate "disk full") ∧
     (∀ u ∈ (process_job c1wEnv c7Job).1, u.status ≠ JobStatus.COMPLETED)) :=
  ⟨rfl, C1_failed_persistence_amended c1wEnv c7Job initialJob "disk full" rfl⟩

/-- The persisted progress sequence determined by an initial value and the
per-update `progress` arguments (an absent argument keeps the old value). -/
def progress_scan : Nat → List (Option Nat) → List Nat
  | p, [] => [p]
  | p, o :: os => p :: progress_scan (o.getD p) os

theorem record_trace_map_progress (r0 : JobRecord) :
    ∀ us : List UpdateArgs,
      (record_trace r0 us).map (fun r => r.progress)
        = progress_scan r0.progress (us.map (fun u => u.progress)) := by
  intro us
  induction us generalizing r0 with
  | nil => rfl
  | cons u rest ih =>
    simp only [record_trace, List.map_cons, progress_scan, ih (update_job r0 u)]
    rfl

theorem process_job_ok_progress (env : PipelineEnv) (job : JobInput)
    (path : String) (dur : ℚ) (n : Nat)
    (h : (process_job env job).2 = RunResult.ok path dur n) :
    (process_job env job).1.map (fun u => u.progress)
        = [some 5, some 15, some 20, some 35, some 40, some 55, some 60, some 75,
           some 80, some 100] ∨
    (process_job env job).1.map (fun u => u.progress)
        = [some 5, some 15, some 20, some 35, some 40, some 55, some 60, some 75,
           some 80, some 90, some 100] := by
  unfold process_job at h ⊢
  cases hps : parse_stage env with
  | error d0 =>
    simp only [hps, failTrace] at h
    simp at h
  | ok pc =>
    simp only [hps] at h ⊢
    unfold process_from_script at h ⊢
    cases him : env.imagesResult with
    | error d0 =>
      simp only [him, failTrace] at h
      simp at h
    | ok imgs =>
      simp only [him] at h ⊢
      cases har : env.audioResult with
      | error d0 =>
        simp only [har, failTrace] at h
        simp at h
      | ok ar =>
        simp only [har] at h ⊢
        cases hsu : ar.success with
        | false =>
          simp only [hsu, eq_self_iff_true, if_true, failTrace] at h
          simp at h
        | true =>
          simp only [hsu, Bool.true_eq_false, if_false] at h ⊢
          unfold process_from_compose at h ⊢
          cases hcv : compose_video_stage env imgs (effective_audio_files env ar) with
          | err msg =>
            simp only [hcv, failTrace] at h
            simp at h
          | ok p0 d0 k0 =>
            simp only [hcv] at h ⊢
            cases hb : (match job.avatar_option with
              | some opt => decide (opt ≠ AvatarOption.NONE)
              | none => false) with
            | false =>
              left
              simp only [hb, Bool.false_eq_true, if_false]
              simp [updP]
            | true =>
              right
              simp only [hb, eq_self_iff_true, if_true]
              simp [updP]

/-- Concrete pipeline environment for the C4 counterexample: the parse
stage raises after the first progress checkpoint has been persisted. -/
def c4Env : PipelineEnv :=
  { parseResult := Except.error "boom"
    llmResult := Except.ok []
    imagesResult := Except.ok []
    audioResult := Except.ok { success := true, error := none, audio_files := [] }
    introOk := false
    composerInitOk := true
    composeEnv := c6Env
    avatarGenOk := false
    overlayExit := 1
    overlayStderr := "" }

/-- C4 counterexample: a run that ends in the terminal state FAILED first
persists progress 5 and then persists progress 0 in the failure update, so
the persisted progress sequence of a PENDING-to-terminal run decreases
between two consecutive job-store updates. -/
theorem C4_progress_monotone_counterexample :
    (final_record c4Env c7Job initialJob).status = JobStatus.FAILED ∧
    progress_trace c4Env c7Job initialJob = [0, 5, 0] ∧
    ¬ List.Chain' (· ≤ ·) (progress_trace c4Env c7Job initialJob) := by
  refine ⟨rfl, rfl, ?_⟩
  have h : progress_trace c4Env c7Job initialJob = [0, 5, 0] := rfl
  rw [h]
  norm_num [List.chain'_cons, List.chain'_singleton]

/-- C4 as amended: the persisted progress value never decreases between
consecutive job-store updates across a single run that ends in COMPLETED;
a run that ends in FAILED instead finishes with a reset to progress 0,
which is a decrease as soon as any earlier checkpoint was persisted. -/
theorem C4_progress_monotone_amended (env : PipelineEnv) (job : JobInput)
    (r0 : JobRecord) (h0 : r0.progress = 0)
    (hc : (final_record env job r0).status = JobStatus.COMPLETED) :
    List.Chain' (· ≤ ·) (progress_trace env job r0) := by
  cases hres : (process_job env job).2 with
  | failed d =>
    exfalso
    obtain ⟨⟨tr, htr⟩, -⟩ := process_job_failed_shape env job d hres
    rw [final_record, htr, foldl_update_concat] at hc
    exact absurd hc (by simp [update_job_status_eq, failUpdate])
  | ok path dur n =>
    have hmap := process_job_ok_progress env job path dur n hres
    rw [progress_trace, record_trace_map_progress, h0]
    rcases hmap with hmap | hmap <;> rw [hmap] <;>
      norm_num [progress_scan, List.chain'_cons, List.chain'_singleton]

/-- Witness for the amended C4 at a concrete input: an all-success run from
a fresh PENDING record ends COMPLETED with a non-decreasing progress
sequence. -/
theorem C4_progress_monotone_amended_witness :
    initialJob.progress = 0 ∧
    (final_record c7Env c7Job initialJob).status = JobStatus.COMPLETED ∧
    List.Chain' (· ≤ ·) (progress_trace c7Env c7Job initialJob) :=
  ⟨rfl, by decide, C4_progress_monotone_amended c7Env c7Job initialJob rfl (by decide)⟩

/-- C9: for a job whose avatar option is not "none", when the pipeline
reaches the avatar step (all earlier stages succeeded) and avatar
generation or the overlay step fails (`_add_avatar` returns `None`), the
run still ends COMPLETED with progress 100 and the final video path set to
the non-overlaid composed video. -/
theorem C9_avatar_soft_failure (env : PipelineEnv) (job : JobInput) (r0 : JobRecord)
    (pc : ParsedContent) (imgs : List String) (ar : AudioGenResult)
    (path : String) (dur : ℚ) (k : Nat) (opt : AvatarOption)
    (h1 : parse_stage env = Except.ok pc)
    (h2 : env.imagesResult = Except.ok imgs)
    (h3 : env.audioResult = Except.ok ar)
    (h4 : ar.success = true)
    (h5 : compose_video_stage env imgs (effective_audio_files env ar)
            = ComposeResult.ok path dur k)
    (h6 : job.avatar_option = some opt)
    (h7 : opt ≠ AvatarOption.NONE)
    (h8 : add_avatar env = none) :
    (∃ n, (process_job env job).2 = RunResult.ok path dur n) ∧
    (final_record env job r0).status = JobStatus.COMPLETED ∧
    (final_record env job r0).progress = 100 ∧
    (final_record env job r0).video_path = some path := by
  have hd : (decide (opt ≠ AvatarOption.NONE)) = true := decide_eq_true h7
  simp only [final_record, process_job, process_from_script, process_from_compose,
    h1, h2, h3, h4, h5, h6, h8, hd, Bool.true_eq_false, if_false,
    eq_self_iff_true, if_true, Option.getD_none]
  refine ⟨⟨_, rfl⟩, ?_, ?_, ?_⟩ <;>
    simp [List.foldl_append, update_job, updP]

/-- Job input for the C9 witness: avatar option "svg". -/
def c9Job : JobInput := { title := "Doc", avatar_option := some AvatarOption.SVG }

/-- Witness for C9 at a concrete input: avatar generation fails
(`avatarGenOk = false` in `c7Env`), yet the run completes with the
non-overlaid video. -/
theorem C9_avatar_soft_failure_witness :
    parse_stage c7Env
        = Except.ok { text := "alpha beta", sections := [], figures := [], error := none } ∧
    c7Env.imagesResult = Except.ok ["s1.png"] ∧
    c7Env.audioResult = Except.ok { success := true, error := none, audio_files := [] } ∧
    compose_video_stage c7Env ["s1.png"]
        (effective_audio_files c7Env { success := true, error := none, audio_files := [] })
        = ComposeResult.ok "presentation.mp4" 10 1 ∧
    c9Job.avatar_option = some AvatarOption.SVG ∧
    AvatarOption.SVG ≠ AvatarOption.NONE ∧
    add_avatar c7Env = none ∧
    ((∃ n, (process_job c7Env c9Job).2 = RunResult.ok "presentation.mp4" 10 n) ∧
     (final_record c7Env c9Job initialJob).status = JobStatus.COMPLETED ∧
     (final_record c7Env c9Job initialJob).progress = 100 ∧
     (final_record c7Env c9Job initialJob).video_path = some "presentation.mp4") :=
  ⟨rfl, rfl, rfl, by decide, rfl, by decide, rfl,
    C9_avatar_soft_failure c7Env c9Job initialJob
      { text := "alpha beta", sections := [], figures := [], error := none }
      ["s1.png"] { success := true, error := none, audio_files := [] }
      "presentation.mp4" 10 1 AvatarOption.SVG rfl rfl rfl rfl (by decide) rfl
      (by decide) rfl⟩
